import Mathlib

/-!
Shallow embedding of the friendship-logbook application (src/app.py):
a two-user journal with memory entries (title, story, coordinates, date,
optional photo) and appreciation notes between the two fixed users.

The database tables become lists of rows; the SQLite connection becomes
explicit state passing. Form data is a record of `Option String` values
(`request.form[k]` on a missing key raises, modelled as `Except.error`).
Uploaded files are modelled by their filename; saved files are recorded as
a list of stored paths in the state. `secure_filename` (werkzeug) and
`check_password_hash` (werkzeug) are external library functions, passed in
as function parameters so that no behaviour is invented for them.
-/

/-- A row of the `memory` table (app.py, `init_db`). SQLite is dynamically
typed: the handlers insert the form strings verbatim, so `latitude`,
`longitude` and `date` are kept as the submitted strings. -/
structure MemoryRow where
  id : Nat
  title : String
  story : String
  latitude : String
  longitude : String
  photo_url : Option String
  date : String
  user_id : Nat
deriving Repr, DecidableEq

/-- A row of the `appreciation` table (app.py, `init_db`). -/
structure AppreciationRow where
  id : Nat
  text : String
  author_id : Nat
  recipient_id : Nat
deriving Repr, DecidableEq

/-- A row of the `user` table (app.py, `init_db`). -/
structure UserRow where
  id : Nat
  username : String
  password_hash : String
deriving Repr, DecidableEq

/-- The persistent state: the three tables of `logbook.db`, the
AUTOINCREMENT counters for `memory` and `appreciation`, and the list of
file paths saved under the upload folder. -/
structure AppState where
  memory : List MemoryRow
  appreciation : List AppreciationRow
  user : List UserRow
  next_memory_id : Nat
  next_appreciation_id : Nat
  files : List String
deriving Repr, DecidableEq

/-- The observable HTTP outcome of a handler: a redirect to a named route,
or a rendered template with an optional error message. -/
inductive Response where
  | redirect (route : String)
  | render (template : String) (error : Option String)
deriving Repr, DecidableEq

/-- Raised when `request.form[key]` is accessed and the key is absent
(werkzeug BadRequestKeyError, an HTTP 400); no handler in app.py catches
it, so the operation aborts. -/
inductive HttpError where
  | badRequestKeyError (key : String)
deriving Repr, DecidableEq

/-- An uploaded file as the handlers see it: `request.files['photo']`.
A FileStorage is truthy in Python exactly when its filename is non-empty. -/
structure FileStorage where
  filename : String
deriving Repr, DecidableEq

/-- ALLOWED_EXTENSIONS (app.py line 25). -/
def ALLOWED_EXTENSIONS : List String := ["png", "jpg", "jpeg", "gif"]

/-- UPLOAD_FOLDER (app.py line 24). -/
def UPLOAD_FOLDER : String := "static/uploads"

/-- allowed_file (app.py lines 30-32):
`'.' in filename and filename.rsplit('.', 1)[1].lower() in ALLOWED_EXTENSIONS`.
Working over the character list: the filename must contain a dot, and the
characters after the last dot (`rsplit('.', 1)[1]`: the longest dot-free
suffix), lowercased, must spell a member of ALLOWED_EXTENSIONS. -/
def allowed_file (filename : String) : Bool :=
  let cs := filename.toList
  cs.contains '.' &&
    ALLOWED_EXTENSIONS.contains
      (String.mk (((cs.reverse.takeWhile (fun c => c != '.')).reverse).map Char.toLower))

/-- The form fields a memory create/update reads from `request.form`;
`none` models an absent key. -/
structure MemoryForm where
  title : Option String
  story : Option String
  latitude : Option String
  longitude : Option String
  date : Option String
deriving Repr, DecidableEq

/-- login (app.py lines 112-132), POST branch for an unauthenticated
caller. Looks the username up, verifies the hash, and either authenticates
(returning the user id) or re-renders the login template with the error
string. `check` stands for werkzeug's `check_password_hash`. -/
def login (check : String → String → Bool) (username password : String)
    (s : AppState) : Option Nat × Response :=
  match s.user.find? (fun u => u.username == username) with
  | some user_row =>
    if check user_row.password_hash password then
      (some user_row.id, Response.redirect "home")
    else
      (none, Response.render "login.html" (some "Invalid credentials"))
  | none => (none, Response.render "login.html" (some "Invalid credentials"))

/-- add_memory (app.py lines 161-205), POST branch. Reads the five form
fields (aborting on a missing key as `request.form[k]` does), runs the file
upload logic, and inserts the row with the form strings verbatim.
`secure` stands for werkzeug's `secure_filename`. -/
def add_memory (secure : String → String) (uid : Nat) (form : MemoryForm)
    (photo : Option FileStorage) (s : AppState) :
    Except HttpError (AppState × Response) :=
  match form.title with
  | none => Except.error (HttpError.badRequestKeyError "title")
  | some title =>
  match form.story with
  | none => Except.error (HttpError.badRequestKeyError "story")
  | some story =>
  match form.latitude with
  | none => Except.error (HttpError.badRequestKeyError "latitude")
  | some latitude =>
  match form.longitude with
  | none => Except.error (HttpError.badRequestKeyError "longitude")
  | some longitude =>
  match form.date with
  | none => Except.error (HttpError.badRequestKeyError "date")
  | some date =>
  let saved : Option String :=
    match photo with
    | some file =>
      if (file.filename != "") && allowed_file file.filename then
        some (UPLOAD_FOLDER ++ "/" ++ secure file.filename)
      else none
    | none => none
  let photo_url := saved
  let files := match saved with
    | some path => s.files ++ [path]
    | none => s.files
  let row : MemoryRow :=
    { id := s.next_memory_id, title := title, story := story,
      latitude := latitude, longitude := longitude, photo_url := photo_url,
      date := date, user_id := uid }
  Except.ok
    ({ s with memory := s.memory ++ [row],
              next_memory_id := s.next_memory_id + 1,
              files := files },
     Response.redirect "home")

/-- The `SELECT * FROM memory WHERE id = ?` lookup used by edit_memory
(app.py lines 211-212): the first row with the given id, if any. -/
def get_memory (memory_id : Nat) (s : AppState) : Option MemoryRow :=
  s.memory.find? (fun r => r.id == memory_id)

/-- edit_memory (app.py lines 208-262), POST branch. Fetches the row,
redirects to home when it is absent or owned by another user, otherwise
reads the form, keeps the stored photo_url unless a new valid file is
supplied, and runs `UPDATE memory SET ... WHERE id = ?` (which rewrites
every row matching the id and touches no other row or column). -/
def edit_memory (secure : String → String) (uid : Nat) (memory_id : Nat)
    (form : MemoryForm) (photo : Option FileStorage) (s : AppState) :
    Except HttpError (AppState × Response) :=
  match s.memory.find? (fun r => r.id == memory_id) with
  | none => Except.ok (s, Response.redirect "home")
  | some memory =>
  if memory.user_id != uid then Except.ok (s, Response.redirect "home")
  else
  match form.title with
  | none => Except.error (HttpError.badRequestKeyError "title")
  | some title =>
  match form.story with
  | none => Except.error (HttpError.badRequestKeyError "story")
  | some story =>
  match form.latitude with
  | none => Except.error (HttpError.badRequestKeyError "latitude")
  | some latitude =>
  match form.longitude with
  | none => Except.error (HttpError.badRequestKeyError "longitude")
  | some longitude =>
  match form.date with
  | none => Except.error (HttpError.badRequestKeyError "date")
  | some date =>
  let saved : Option String :=
    match photo with
    | some file =>
      if (file.filename != "") && allowed_file file.filename then
        some (UPLOAD_FOLDER ++ "/" ++ secure file.filename)
      else none
    | none => none
  let photo_url := match saved with
    | some path => some path
    | none => memory.photo_url
  let files := match saved with
    | some path => s.files ++ [path]
    | none => s.files
  Except.ok
    ({ s with
        memory := s.memory.map (fun r =>
          if r.id == memory_id then
            { r with title := title, story := story, latitude := latitude,
                     longitude := longitude, photo_url := photo_url,
                     date := date }
          else r),
        files := files },
     Response.redirect "home")

/-- delete_memory (app.py lines 265-279). Redirects to home when the row
is absent or owned by another user; otherwise runs
`DELETE FROM memory WHERE id = ?`. -/
def delete_memory (uid : Nat) (memory_id : Nat) (s : AppState) :
    AppState × Response :=
  match s.memory.find? (fun r => r.id == memory_id) with
  | none => (s, Response.redirect "home")
  | some memory =>
    if memory.user_id != uid then (s, Response.redirect "home")
    else
      ({ s with memory := s.memory.filter (fun r => r.id != memory_id) },
       Response.redirect "home")

/-- appreciation (app.py lines 282-298), POST branch: the note create.
Reads `request.form['text']`, computes `recipient_id = 1 if author_id == 2
else 2`, and inserts the row. -/
def appreciation (uid : Nat) (text : Option String) (s : AppState) :
    Except HttpError (AppState × Response) :=
  match text with
  | none => Except.error (HttpError.badRequestKeyError "text")
  | some text =>
    let author_id := uid
    let recipient_id := if author_id == 2 then 1 else 2
    let row : AppreciationRow :=
      { id := s.next_appreciation_id, text := text,
        author_id := author_id, recipient_id := recipient_id }
    Except.ok
      ({ s with appreciation := s.appreciation ++ [row],
                next_appreciation_id := s.next_appreciation_id + 1 },
       Response.redirect "appreciation")

/-- edit_appreciation (app.py lines 317-343), POST branch. Redirects to
the appreciation listing when the note is absent or authored by another
user; otherwise runs `UPDATE appreciation SET text = ? WHERE id = ?`. -/
def edit_appreciation (uid : Nat) (note_id : Nat) (text : Option String)
    (s : AppState) : Except HttpError (AppState × Response) :=
  match s.appreciation.find? (fun r => r.id == note_id) with
  | none => Except.ok (s, Response.redirect "appreciation")
  | some note =>
  if note.author_id != uid then Except.ok (s, Response.redirect "appreciation")
  else
  match text with
  | none => Except.error (HttpError.badRequestKeyError "text")
  | some new_text =>
    Except.ok
      ({ s with appreciation := s.appreciation.map (fun r =>
          if r.id == note_id then { r with text := new_text } else r) },
       Response.redirect "appreciation")

/-- delete_appreciation (app.py lines 347-362). Redirects to the
appreciation listing when the note is absent or authored by another user;
otherwise runs `DELETE FROM appreciation WHERE id = ?`. -/
def delete_appreciation (uid : Nat) (note_id : Nat) (s : AppState) :
    AppState × Response :=
  match s.appreciation.find? (fun r => r.id == note_id) with
  | none => (s, Response.redirect "appreciation")
  | some note =>
    if note.author_id != uid then (s, Response.redirect "appreciation")
    else
      ({ s with appreciation :=
          s.appreciation.filter (fun r => r.id != note_id) },
       Response.redirect "appreciation")

/-- C1: an update or delete attempt on a Memory or Appreciation record
whose id matches no row, or whose matching row belongs to another user,
leaves the whole store unchanged and redirects to the corresponding
listing view, with the identical outcome in the not-found and the
not-owner case. Each table's guarantee is guarded only by that table's
own guard condition. -/
theorem C1_mutation_guard (secure : String → String) (uid rid : Nat)
    (form : MemoryForm) (photo : Option FileStorage) (text : Option String)
    (s : AppState) :
    ((∀ r ∈ s.memory, r.id = rid → r.user_id ≠ uid) →
      edit_memory secure uid rid form photo s =
        Except.ok (s, Response.redirect "home") ∧
      delete_memory uid rid s = (s, Response.redirect "home")) ∧
    ((∀ r ∈ s.appreciation, r.id = rid → r.author_id ≠ uid) →
      edit_appreciation uid rid text s =
        Except.ok (s, Response.redirect "appreciation") ∧
      delete_appreciation uid rid s = (s, Response.redirect "appreciation")) := by
  constructor
  · intro hmem
    constructor
    · cases hfind : s.memory.find? (fun r => r.id == rid) with
      | none => simp [edit_memory, hfind]
      | some r =>
        have hid : r.id = rid := by simpa using List.find?_some hfind
        have hne : r.user_id ≠ uid :=
          hmem r (List.mem_of_find?_eq_some hfind) hid
        simp [edit_memory, hfind, hne]
    · cases hfind : s.memory.find? (fun r => r.id == rid) with
      | none => simp [delete_memory, hfind]
      | some r =>
        have hid : r.id = rid := by simpa using List.find?_some hfind
        have hne : r.user_id ≠ uid :=
          hmem r (List.mem_of_find?_eq_some hfind) hid
        simp [delete_memory, hfind, hne]
  · intro happ
    constructor
    · cases hfind : s.appreciation.find? (fun r => r.id == rid) with
      | none => simp [edit_appreciation, hfind]
      | some r =>
        have hid : r.id = rid := by simpa using List.find?_some hfind
        have hne : r.author_id ≠ uid :=
          happ r (List.mem_of_find?_eq_some hfind) hid
        simp [edit_appreciation, hfind, hne]
    · cases hfind : s.appreciation.find? (fun r => r.id == rid) with
      | none => simp [delete_appreciation, hfind]
      | some r =>
        have hid : r.id = rid := by simpa using List.find?_some hfind
        have hne : r.author_id ≠ uid :=
          happ r (List.mem_of_find?_eq_some hfind) hid
        simp [delete_appreciation, hfind, hne]

/-- C1 witness, in a store where memory #1 is owned by user 1 and
appreciation #1 is authored by user 2 (overlapping ids): user 2's
edit/delete of memory #1 is a no-op redirect even though user 2 authors
appreciation #1, and symmetrically user 1's edit/delete of appreciation
#1 is a no-op redirect. -/
theorem C1_mutation_guard_witness :
    (edit_memory (fun x => x) 2 1
        ⟨some "T", some "S", some "0", some "0", some "d"⟩ none
        ⟨[⟨1, "A", "B", "1", "2", none, "d", 1⟩], [⟨1, "t", 2, 1⟩], [], 2, 2, []⟩ =
      Except.ok
        (⟨[⟨1, "A", "B", "1", "2", none, "d", 1⟩], [⟨1, "t", 2, 1⟩], [], 2, 2, []⟩,
         Response.redirect "home") ∧
     delete_memory 2 1
        ⟨[⟨1, "A", "B", "1", "2", none, "d", 1⟩], [⟨1, "t", 2, 1⟩], [], 2, 2, []⟩ =
      (⟨[⟨1, "A", "B", "1", "2", none, "d", 1⟩], [⟨1, "t", 2, 1⟩], [], 2, 2, []⟩,
       Response.redirect "home")) ∧
    (edit_appreciation 1 1 (some "new")
        ⟨[⟨1, "A", "B", "1", "2", none, "d", 1⟩], [⟨1, "t", 2, 1⟩], [], 2, 2, []⟩ =
      Except.ok
        (⟨[⟨1, "A", "B", "1", "2", none, "d", 1⟩], [⟨1, "t", 2, 1⟩], [], 2, 2, []⟩,
         Response.redirect "appreciation") ∧
     delete_appreciation 1 1
        ⟨[⟨1, "A", "B", "1", "2", none, "d", 1⟩], [⟨1, "t", 2, 1⟩], [], 2, 2, []⟩ =
      (⟨[⟨1, "A", "B", "1", "2", none, "d", 1⟩], [⟨1, "t", 2, 1⟩], [], 2, 2, []⟩,
       Response.redirect "appreciation")) :=
  ⟨(C1_mutation_guard (fun x => x) 2 1
      ⟨some "T", some "S", some "0", some "0", some "d"⟩ none (some "new")
      ⟨[⟨1, "A", "B", "1", "2", none, "d", 1⟩], [⟨1, "t", 2, 1⟩], [], 2, 2, []⟩).1
    (by decide),
   (C1_mutation_guard (fun x => x) 1 1
      ⟨some "T", some "S", some "0", some "0", some "d"⟩ none (some "new")
      ⟨[⟨1, "A", "B", "1", "2", none, "d", 1⟩], [⟨1, "t", 2, 1⟩], [], 2, 2, []⟩).2
    (by decide)⟩

/-- C2: an appreciation created by user 1 or user 2 always records the
other fixed user as recipient: recipient differs from author, author 1
gets recipient 2, author 2 gets recipient 1. -/
theorem C2_recipient_invariant (uid : Nat) (h : uid = 1 ∨ uid = 2)
    (text : String) (s : AppState) :
    ∃ row : AppreciationRow,
      appreciation uid (some text) s =
        Except.ok
          ({ s with appreciation := s.appreciation ++ [row],
                    next_appreciation_id := s.next_appreciation_id + 1 },
           Response.redirect "appreciation") ∧
      row.author_id = uid ∧ row.recipient_id ≠ row.author_id ∧
      (uid = 1 → row.recipient_id = 2) ∧ (uid = 2 → row.recipient_id = 1) := by
  rcases h with h | h <;> subst h
  · exact ⟨⟨s.next_appreciation_id, text, 1, 2⟩, rfl, rfl, by simp,
      fun _ => rfl, by simp⟩
  · exact ⟨⟨s.next_appreciation_id, text, 2, 1⟩, rfl, rfl, by simp,
      by simp, fun _ => rfl⟩

/-- C2 witness: user 1 creating a note in the empty store yields a row
addressed to user 2. -/
theorem C2_recipient_invariant_witness :
    ∃ row : AppreciationRow,
      appreciation 1 (some "thanks") ⟨[], [], [], 1, 1, []⟩ =
        Except.ok (⟨[], [row], [], 1, 2, []⟩, Response.redirect "appreciation") ∧
      row.recipient_id = 2 := by
  obtain ⟨row, h1, _, _, h4, _⟩ :=
    C2_recipient_invariant 1 (Or.inl rfl) "thanks" ⟨[], [], [], 1, 1, []⟩
  exact ⟨row, by simpa using h1, h4 rfl⟩

/-- C3: a memory create with an attached file stores the file and records
its relative path as photo_url exactly when the filename is non-empty and
allowed_file accepts it (extension after the last dot, lowercased, in
{png, jpg, jpeg, gif}); otherwise no file is stored, no error is raised,
and photo_url is null — in particular for a file named payload.exe. -/
theorem C3_upload_filter (secure : String → String) (uid : Nat)
    (title story latitude longitude date : String) (f : FileStorage)
    (s : AppState) :
    ∃ s2 row,
      add_memory secure uid
          ⟨some title, some story, some latitude, some longitude, some date⟩
          (some f) s =
        Except.ok (s2, Response.redirect "home") ∧
      s2.memory = s.memory ++ [row] ∧
      (f.filename ≠ "" ∧ allowed_file f.filename = true →
        row.photo_url = some (UPLOAD_FOLDER ++ "/" ++ secure f.filename) ∧
        s2.files = s.files ++ [UPLOAD_FOLDER ++ "/" ++ secure f.filename]) ∧
      (¬(f.filename ≠ "" ∧ allowed_file f.filename = true) →
        row.photo_url = none ∧ s2.files = s.files) ∧
      (f.filename = "payload.exe" → row.photo_url = none ∧ s2.files = s.files) := by
  cases hb : (f.filename != "") && allowed_file f.filename with
  | true =>
    have hc : f.filename ≠ "" ∧ allowed_file f.filename = true := by
      simpa [Bool.and_eq_true, bne_iff_ne] using hb
    refine ⟨{ s with
        memory := s.memory ++
          [⟨s.next_memory_id, title, story, latitude, longitude,
            some (UPLOAD_FOLDER ++ "/" ++ secure f.filename), date, uid⟩],
        next_memory_id := s.next_memory_id + 1,
        files := s.files ++ [UPLOAD_FOLDER ++ "/" ++ secure f.filename] },
      ⟨s.next_memory_id, title, story, latitude, longitude,
       some (UPLOAD_FOLDER ++ "/" ++ secure f.filename), date, uid⟩,
      by simp [add_memory, hb], rfl, fun _ => ⟨rfl, rfl⟩, fun h => absurd hc h,
      ?_⟩
    intro hpay
    rw [hpay] at hb
    exact absurd hb (by decide)
  | false =>
    have hc : ¬(f.filename ≠ "" ∧ allowed_file f.filename = true) := by
      intro ⟨h1, h2⟩
      rw [Bool.and_eq_false_iff] at hb
      rcases hb with hb | hb
      · exact h1 (by simpa [bne_eq_false_iff_eq] using hb)
      · rw [h2] at hb; cases hb
    refine ⟨{ s with
        memory := s.memory ++
          [⟨s.next_memory_id, title, story, latitude, longitude, none, date, uid⟩],
        next_memory_id := s.next_memory_id + 1 },
      ⟨s.next_memory_id, title, story, latitude, longitude, none, date, uid⟩,
      by simp [add_memory, hb], rfl, fun h => absurd h hc, fun _ => ⟨rfl, rfl⟩,
      fun _ => ⟨rfl, rfl⟩⟩

/-- C3 witness: creating a memory with an attached payload.exe in a
concrete store stores no file and leaves photo_url null. -/
theorem C3_upload_filter_witness :
    ∃ s2 row,
      add_memory (fun x => x) 1
          ⟨some "T", some "S", some "1", some "2", some "d"⟩
          (some ⟨"payload.exe"⟩) ⟨[], [], [], 1, 1, []⟩ =
        Except.ok (s2, Response.redirect "home") ∧
      s2.memory = [] ++ [row] ∧ row.photo_url = none ∧ s2.files = [] := by
  obtain ⟨s2, row, h1, h2, _, _, h5⟩ :=
    C3_upload_filter (fun x => x) 1 "T" "S" "1" "2" "d" ⟨"payload.exe"⟩
      ⟨[], [], [], 1, 1, []⟩
  exact ⟨s2, row, h1, h2, (h5 rfl).1, (h5 rfl).2⟩

/-- C4 counterexample: a memory create whose latitude is the non-numeric
string "abc" and whose date is unparseable does not fail with any error —
it succeeds and inserts the row, refuting the claim that malformed input
yields a ValidationError with no row inserted. -/
theorem C4_no_validation_counterexample :
    add_memory (fun x => x) 1
        ⟨some "T", some "S", some "abc", some "0", some "not-a-date"⟩ none
        ⟨[], [], [], 1, 1, []⟩ =
      Except.ok
        (⟨[⟨1, "T", "S", "abc", "0", none, "not-a-date", 1⟩], [], [], 2, 1, []⟩,
         Response.redirect "home") := rfl

/-- C4 amended: a memory create with any of the five required form fields
absent aborts with a bad-request key error and inserts nothing; when all
five fields are present the create always succeeds and inserts the row
with the submitted strings verbatim — no validation of coordinates or
date is performed, and no ValidationError exists. -/
theorem C4_no_validation_amended (secure : String → String) (uid : Nat)
    (form : MemoryForm) (s : AppState) :
    ((form.title = none ∨ form.story = none ∨ form.latitude = none ∨
        form.longitude = none ∨ form.date = none) →
      ∃ k, add_memory secure uid form none s =
        Except.error (HttpError.badRequestKeyError k)) ∧
    (∀ title story latitude longitude date,
      form = ⟨some title, some story, some latitude, some longitude, some date⟩ →
      add_memory secure uid form none s =
        Except.ok
          ({ s with
              memory := s.memory ++
                [⟨s.next_memory_id, title, story, latitude, longitude, none,
                  date, uid⟩],
              next_memory_id := s.next_memory_id + 1 },
           Response.redirect "home")) := by
  rcases form with ⟨t, st, la, lo, d⟩
  constructor
  · intro h
    rcases t with _ | t
    · exact ⟨"title", rfl⟩
    rcases st with _ | st
    · exact ⟨"story", rfl⟩
    rcases la with _ | la
    · exact ⟨"latitude", rfl⟩
    rcases lo with _ | lo
    · exact ⟨"longitude", rfl⟩
    rcases d with _ | d
    · exact ⟨"date", rfl⟩
    · simp at h
  · intro title story latitude longitude date heq
    cases heq
    rfl

/-- C4 witness for the amended claim: a concrete create with a missing
title aborts, and a concrete create with latitude "abc" inserts the row. -/
theorem C4_no_validation_witness :
    (∃ k, add_memory (fun x => x) 1
        ⟨none, some "S", some "1", some "2", some "d"⟩ none
        ⟨[], [], [], 1, 1, []⟩ =
      Except.error (HttpError.badRequestKeyError k)) ∧
    add_memory (fun x => x) 2
        ⟨some "T", some "S", some "abc", some "9", some "x"⟩ none
        ⟨[], [], [], 1, 1, []⟩ =
      Except.ok
        (⟨[⟨1, "T", "S", "abc", "9", none, "x", 2⟩], [], [], 2, 1, []⟩,
         Response.redirect "home") := by
  constructor
  · exact (C4_no_validation_amended (fun x => x) 1
      ⟨none, some "S", some "1", some "2", some "d"⟩
      ⟨[], [], [], 1, 1, []⟩).1 (Or.inl rfl)
  · have h := (C4_no_validation_amended (fun x => x) 2
      ⟨some "T", some "S", some "abc", some "9", some "x"⟩
      ⟨[], [], [], 1, 1, []⟩).2 "T" "S" "abc" "9" "x" rfl
    simpa using h

/-- C5 counterexample: an appreciation create with empty text succeeds and
inserts the row, refuting the claim that empty text yields a
ValidationError with no row inserted. -/
theorem C5_empty_text_counterexample :
    appreciation 1 (some "") ⟨[], [], [], 1, 1, []⟩ =
      Except.ok (⟨[], [⟨1, "", 1, 2⟩], [], 1, 2, []⟩,
        Response.redirect "appreciation") := rfl

/-- C5 amended: an appreciation create with empty text is not rejected —
no ValidationError exists; the row is inserted with the empty text and the
usual recipient computation. -/
theorem C5_empty_text_amended (uid : Nat) (s : AppState) :
    appreciation uid (some "") s =
      Except.ok
        ({ s with
            appreciation := s.appreciation ++
              [⟨s.next_appreciation_id, "", uid, if uid == 2 then 1 else 2⟩],
            next_appreciation_id := s.next_appreciation_id + 1 },
         Response.redirect "appreciation") := rfl

/-- C6: a memory update by the row's owner that supplies no new valid
photo keeps the stored photo_url unchanged while overwriting the other
submitted fields, and touches no other row. -/
theorem C6_photo_retained (secure : String → String) (uid mid : Nat)
    (title story latitude longitude date : String)
    (photo : Option FileStorage) (s : AppState) (m : MemoryRow)
    (hfind : s.memory.find? (fun r => r.id == mid) = some m)
    (hown : m.user_id = uid)
    (hph : ∀ file, photo = some file →
      ((file.filename != "") && allowed_file file.filename) = false) :
    edit_memory secure uid mid
        ⟨some title, some story, some latitude, some longitude, some date⟩
        photo s =
      Except.ok
        ({ s with memory := s.memory.map (fun r =>
            if r.id == mid then
              { r with title := title, story := story, latitude := latitude,
                       longitude := longitude, photo_url := m.photo_url,
                       date := date }
            else r) },
         Response.redirect "home") := by
  cases photo with
  | none => simp [edit_memory, hfind, hown]
  | some f =>
    have hb := hph f rfl
    simp [edit_memory, hfind, hown, hb]

/-- C6 witness: the owner edits a concrete memory without a photo and the
stored photo_url survives while the other fields change. -/
theorem C6_photo_retained_witness :
    edit_memory (fun x => x) 1 1
        ⟨some "T2", some "S2", some "3", some "4", some "d2"⟩ none
        ⟨[⟨1, "A", "B", "1", "2", some "static/uploads/p.png", "d", 1⟩],
         [], [], 2, 1, []⟩ =
      Except.ok
        (⟨[⟨1, "T2", "S2", "3", "4", some "static/uploads/p.png", "d2", 1⟩],
          [], [], 2, 1, []⟩,
         Response.redirect "home") := by
  have h := C6_photo_retained (fun x => x) 1 1 "T2" "S2" "3" "4" "d2" none
    ⟨[⟨1, "A", "B", "1", "2", some "static/uploads/p.png", "d", 1⟩],
     [], [], 2, 1, []⟩
    ⟨1, "A", "B", "1", "2", some "static/uploads/p.png", "d", 1⟩
    rfl rfl (fun file hf => by cases hf)
  simpa using h

/-- C7: creating a memory with all five fields and no attached file, then
reading the fresh id back, returns exactly the submitted values with a
null photo_url (freshness of the AUTOINCREMENT counter assumed). -/
theorem C7_round_trip (secure : String → String) (uid : Nat)
    (title story latitude longitude date : String) (s : AppState)
    (hfresh : ∀ r ∈ s.memory, r.id ≠ s.next_memory_id) :
    ∃ s2,
      add_memory secure uid
          ⟨some title, some story, some latitude, some longitude, some date⟩
          none s =
        Except.ok (s2, Response.redirect "home") ∧
      get_memory s.next_memory_id s2 =
        some ⟨s.next_memory_id, title, story, latitude, longitude, none,
              date, uid⟩ := by
  refine ⟨{ s with
      memory := s.memory ++
        [⟨s.next_memory_id, title, story, latitude, longitude, none, date, uid⟩],
      next_memory_id := s.next_memory_id + 1 }, rfl, ?_⟩
  have h1 : s.memory.find? (fun r => r.id == s.next_memory_id) = none := by
    rw [List.find?_eq_none]
    intro x hx
    simpa using hfresh x hx
  simp [get_memory, List.find?_append, h1]

/-- C7 witness: the round trip at a concrete store with one existing
memory row. -/
theorem C7_round_trip_witness :
    ∃ s2,
      add_memory (fun x => x) 2
          ⟨some "Trip", some "Fun", some "1.0", some "2.0", some "2024-01-01"⟩
          none ⟨[⟨1, "A", "B", "1", "2", none, "d", 1⟩], [], [], 2, 1, []⟩ =
        Except.ok (s2, Response.redirect "home") ∧
      get_memory 2 s2 =
        some ⟨2, "Trip", "Fun", "1.0", "2.0", none, "2024-01-01", 2⟩ :=
  C7_round_trip (fun x => x) 2 "Trip" "Fun" "1.0" "2.0" "2024-01-01"
    ⟨[⟨1, "A", "B", "1", "2", none, "d", 1⟩], [], [], 2, 1, []⟩ (by decide)

/-- C8: deleting a Memory or Appreciation id that matches no row is a
no-op redirect raising no error, and after a successful delete of an id a
second delete of the same id (by any caller) is such a no-op — delete is
idempotent. -/
theorem C8_delete_idempotent (uid uid2 rid : Nat) (s : AppState) :
    (s.memory.find? (fun r => r.id == rid) = none →
      delete_memory uid rid s = (s, Response.redirect "home")) ∧
    (s.appreciation.find? (fun r => r.id == rid) = none →
      delete_appreciation uid rid s = (s, Response.redirect "appreciation")) ∧
    (∀ m, s.memory.find? (fun r => r.id == rid) = some m → m.user_id = uid →
      delete_memory uid2 rid (delete_memory uid rid s).1 =
        ((delete_memory uid rid s).1, Response.redirect "home")) ∧
    (∀ a, s.appreciation.find? (fun r => r.id == rid) = some a →
      a.author_id = uid →
      delete_appreciation uid2 rid (delete_appreciation uid rid s).1 =
        ((delete_appreciation uid rid s).1,
         Response.redirect "appreciation")) := by
  refine ⟨?_, ?_, ?_, ?_⟩
  · intro h; simp [delete_memory, h]
  · intro h; simp [delete_appreciation, h]
  · intro m hfind hown
    have hdel : delete_memory uid rid s =
        ({ s with memory := s.memory.filter (fun r => r.id != rid) },
         Response.redirect "home") := by
      simp [delete_memory, hfind, hown]
    have hnone : (s.memory.filter (fun r => r.id != rid)).find?
        (fun r => r.id == rid) = none := by
      rw [List.find?_eq_none]
      intro x hx
      simpa using (List.mem_filter.mp hx).2
    rw [hdel]
    simp [delete_memory, hnone]
  · intro a hfind hown
    have hdel : delete_appreciation uid rid s =
        ({ s with appreciation :=
            s.appreciation.filter (fun r => r.id != rid) },
         Response.redirect "appreciation") := by
      simp [delete_appreciation, hfind, hown]
    have hnone : (s.appreciation.filter (fun r => r.id != rid)).find?
        (fun r => r.id == rid) = none := by
      rw [List.find?_eq_none]
      intro x hx
      simpa using (List.mem_filter.mp hx).2
    rw [hdel]
    simp [delete_appreciation, hnone]

/-- C8 witness: in a concrete store, deleting an absent memory id is a
no-op, and re-deleting an appreciation id just deleted by its author is a
no-op. -/
theorem C8_delete_idempotent_witness :
    delete_memory 1 7
        ⟨[⟨1, "A", "B", "1", "2", none, "d", 1⟩], [⟨1, "t", 1, 2⟩], [], 2, 2, []⟩ =
      (⟨[⟨1, "A", "B", "1", "2", none, "d", 1⟩], [⟨1, "t", 1, 2⟩], [], 2, 2, []⟩,
       Response.redirect "home") ∧
    delete_appreciation 2 1
        (delete_appreciation 1 1
          ⟨[⟨1, "A", "B", "1", "2", none, "d", 1⟩], [⟨1, "t", 1, 2⟩], [], 2, 2, []⟩).1 =
      ((delete_appreciation 1 1
          ⟨[⟨1, "A", "B", "1", "2", none, "d", 1⟩], [⟨1, "t", 1, 2⟩], [], 2, 2, []⟩).1,
       Response.redirect "appreciation") := by
  constructor
  · exact (C8_delete_idempotent 1 2 7
      ⟨[⟨1, "A", "B", "1", "2", none, "d", 1⟩], [⟨1, "t", 1, 2⟩], [], 2, 2, []⟩).1
      (by decide)
  · exact (C8_delete_idempotent 1 2 1
      ⟨[⟨1, "A", "B", "1", "2", none, "d", 1⟩], [⟨1, "t", 1, 2⟩], [], 2, 2, []⟩).2.2.2
      ⟨1, "t", 1, 2⟩ (by decide) rfl

/-- C9: a login with an existing username but a failing password check and
a login with a username absent from the user table produce the identical
observable outcome: no authentication and the same non-specific
"Invalid credentials" message. -/
theorem C9_login_no_leak (check : String → String → Bool) (s : AppState)
    (u1 p1 u2 p2 : String) (row : UserRow)
    (h1 : s.user.find? (fun u => u.username == u1) = some row)
    (h1b : check row.password_hash p1 = false)
    (h2 : s.user.find? (fun u => u.username == u2) = none) :
    login check u1 p1 s =
      (none, Response.render "login.html" (some "Invalid credentials")) ∧
    login check u2 p2 s =
      (none, Response.render "login.html" (some "Invalid credentials")) ∧
    login check u1 p1 s = login check u2 p2 s := by
  have e1 : login check u1 p1 s =
      (none, Response.render "login.html" (some "Invalid credentials")) := by
    simp [login, h1, h1b]
  have e2 : login check u2 p2 s =
      (none, Response.render "login.html" (some "Invalid credentials")) := by
    simp [login, h2]
  exact ⟨e1, e2, by rw [e1, e2]⟩

/-- C9 witness: with a rejecting password check, logging in as the stored
user "You" and as the absent user "Nobody" give the same failure. -/
theorem C9_login_no_leak_witness :
    login (fun _ _ => false) "You" "guess" ⟨[], [], [⟨1, "You", "H"⟩], 1, 1, []⟩ =
      (none, Response.render "login.html" (some "Invalid credentials")) ∧
    login (fun _ _ => false) "Nobody" "pw" ⟨[], [], [⟨1, "You", "H"⟩], 1, 1, []⟩ =
      (none, Response.render "login.html" (some "Invalid credentials")) ∧
    login (fun _ _ => false) "You" "guess" ⟨[], [], [⟨1, "You", "H"⟩], 1, 1, []⟩ =
      login (fun _ _ => false) "Nobody" "pw" ⟨[], [], [⟨1, "You", "H"⟩], 1, 1, []⟩ :=
  C9_login_no_leak (fun _ _ => false) ⟨[], [], [⟨1, "You", "H"⟩], 1, 1, []⟩
    "You" "guess" "Nobody" "pw" ⟨1, "You", "H"⟩ (by decide) rfl (by decide)

/-- C10: a successful appreciation update by the note's author rewrites
only the text of rows bearing the target id: the (id, author_id,
recipient_id) projection of the whole table is unchanged, every other row
is untouched, and the memory and user tables and stored files are
untouched. -/
theorem C10_update_only_text (uid nid : Nat) (new_text : String)
    (s : AppState) (note : AppreciationRow)
    (hfind : s.appreciation.find? (fun r => r.id == nid) = some note)
    (hown : note.author_id = uid) :
    ∃ s2,
      edit_appreciation uid nid (some new_text) s =
        Except.ok (s2, Response.redirect "appreciation") ∧
      s2.appreciation = s.appreciation.map (fun r =>
        if r.id == nid then { r with text := new_text } else r) ∧
      s2.appreciation.map (fun r => (r.id, r.author_id, r.recipient_id)) =
        s.appreciation.map (fun r => (r.id, r.author_id, r.recipient_id)) ∧
      (∀ r ∈ s.appreciation, r.id ≠ nid →
        r ∈ s2.appreciation) ∧
      s2.memory = s.memory ∧ s2.user = s.user ∧ s2.files = s.files := by
  refine ⟨{ s with appreciation := s.appreciation.map (fun r =>
      if r.id == nid then { r with text := new_text } else r) },
    ?_, rfl, ?_, ?_, rfl, rfl, rfl⟩
  · simp [edit_appreciation, hfind, hown]
  · rw [List.map_map]
    apply List.map_congr_left
    intro r _
    by_cases h : r.id = nid <;> simp [h]
  · intro r hr hne
    have : (if r.id == nid then { r with text := new_text } else r) = r := by
      simp [hne]
    rw [← this]
    exact List.mem_map_of_mem _ hr

/-- C10 witness: the author edits a concrete note among two notes; the
text changes, ids and parties survive, and the other note is untouched. -/
theorem C10_update_only_text_witness :
    ∃ s2,
      edit_appreciation 1 1 (some "edited")
          ⟨[], [⟨1, "old", 1, 2⟩, ⟨2, "other", 2, 1⟩], [], 1, 3, []⟩ =
        Except.ok (s2, Response.redirect "appreciation") ∧
      s2.appreciation =
        [⟨1, "edited", 1, 2⟩, ⟨2, "other", 2, 1⟩] := by
  obtain ⟨s2, h1, h2, _, _, _, _, _⟩ :=
    C10_update_only_text 1 1 "edited"
      ⟨[], [⟨1, "old", 1, 2⟩, ⟨2, "other", 2, 1⟩], [], 1, 3, []⟩
      ⟨1, "old", 1, 2⟩ rfl rfl
  exact ⟨s2, h1, by rw [h2]; rfl⟩
